import Mathlib

/-!
Verification development for the Recilens Nexus AI chatbot orchestration layer
(`AIModel/`).  The definitions below are shallow embeddings of the Python
source: `services/model_manager.py` (adapter lifecycle, retrieval gate, RAG
answer path), `services/inference_service.py` (single-flight model loading
under an asyncio lock), `main.py` (chat routing, context window, ingest and
delete endpoints) and the word-boundary streaming aggregator of
`main copy.py`.  External effects (filesystem, the Ollama client, the vector
store, service construction) are passed in as explicit parameters; machine
state is passed explicitly.  Theorems about the routing, lifecycle, streaming
and error-handling claims follow after the definitions.
-/

/-! ## Python string helpers -/

/-- Truthiness of an optional string field, as Python evaluates it: `None`
and the empty string are falsy. -/
def truthy : Option String → Bool
  | none => false
  | some s => !s.isEmpty

/-- Python `a or b` for an optional string `a` with default `b`. -/
def pyOrStr (o : Option String) (d : String) : String :=
  match o with
  | none => d
  | some s => if s.isEmpty then d else s

/-- Rendering of an optional string inside an f-string: Python prints the
literal `None` when the field is absent. -/
def showOptPy : Option String → String
  | none => "None"
  | some s => s

/-- Whether `needle` is an initial segment of `hay` (character lists). -/
def startsWithChars : List Char → List Char → Bool
  | _, [] => true
  | [], _ :: _ => false
  | c :: cs, d :: ds => c == d && startsWithChars cs ds

/-- Substring test on character lists, the meaning of Python `needle in hay`. -/
def containsSub (hay needle : List Char) : Bool :=
  match hay with
  | [] => needle.isEmpty
  | _ :: tl => startsWithChars hay needle || containsSub tl needle

/-- Substring test on strings: Python `needle in hay`. -/
def strContains (hay needle : String) : Bool :=
  containsSub hay.data needle.data

/-- ASCII lower-casing, the effect of Python `str.lower()` on the ASCII
queries this code handles. -/
def lowerStr (s : String) : String :=
  ⟨s.data.map Char.toLower⟩

/-- Python `str` whitespace characters (ASCII range). -/
def isPySpace (c : Char) : Bool :=
  c == ' ' || c == '\t' || c == '\n' || c == '\r' || c == '\x0b' || c == '\x0c'

/-- Python `str.strip()`: drop whitespace from both ends. -/
def pyStrip (l : List Char) : List Char :=
  ((l.dropWhile isPySpace).reverse.dropWhile isPySpace).reverse

/-- Accumulator pass behind `pyWords`. -/
def pyWordsAux : List Char → List Char → List (List Char)
  | [], acc => if acc.isEmpty then [] else [acc.reverse]
  | c :: cs, acc =>
      if isPySpace c then
        (if acc.isEmpty then pyWordsAux cs [] else acc.reverse :: pyWordsAux cs [])
      else pyWordsAux cs (c :: acc)

/-- Python `query.split()`: split on runs of whitespace, no empty words. -/
def pyWords (q : List Char) : List (List Char) :=
  pyWordsAux q []

/-- Python `len(query.split())`. -/
def pyWordCount (q : List Char) : Nat :=
  (pyWords q).length

/-! ## Retrieval gate (`ModelManager.should_use_rag`) -/

/-- Keyword list `rag_indicators` from `model_manager.py`. -/
def ragIndicators : List String :=
  ["document", "pdf", "file", "data sheet", "company data", "uploaded", "ingested",
   "what", "how", "why", "when", "where", "who", "which", "explain", "describe",
   "tell me about", "information about", "details about", "show me", "find",
   "search", "look for", "according to", "based on", "from the", "in the",
   "analyze", "summarize", "compare", "review", "evaluate", "assess", "examine",
   "price", "cost", "specification", "feature", "procedure", "process", "step",
   "requirement", "guideline", "policy", "rule", "instruction", "method",
   "technical", "specification", "manual", "guide", "report", "analysis",
   "data", "statistics", "number", "figure", "table", "chart", "graph"]

/-- Question-pattern list from `should_use_rag`. -/
def questionPatterns : List String :=
  ["what is", "what are", "how to", "how do", "tell me", "show me"]

/-- Greeting-pattern list from `should_use_rag`. -/
def greetingPatterns : List String :=
  ["hi", "hello", "hey", "good morning", "good afternoon", "thanks", "thank you"]

/-- The `is_greeting` test of `should_use_rag`: some greeting pattern occurs in
the lower-cased query and the query has fewer than five words. -/
def isGreetingShort (q : List Char) : Bool :=
  greetingPatterns.any (fun g => containsSub (q.map Char.toLower) g.data)
    && decide (pyWordCount q < 5)

/-- `ModelManager.should_use_rag`: lexical retrieval gate.  A pure function of
the query text; greetings win over every other match. -/
def should_use_rag (q : List Char) : Bool :=
  let ql := q.map Char.toLower
  let has_indicators := ragIndicators.any (fun p => containsSub ql p.data)
  let has_question_pattern := questionPatterns.any (fun p => containsSub ql p.data)
  if isGreetingShort q then false
  else has_indicators || (has_question_pattern && decide (3 < pyWordCount q))

/-! ## Adapter registry (`ModelManager.loaded_models`) -/

/-- Value stored in `self.loaded_models[model_id]` by `load_lora_adapter`
(the `loaded_at` timestamp and directory size are supplied by the
environment; `service` is an opaque handle standing for the constructed
`LoRAInferenceService` instance). -/
structure ModelInfo where
  name : String
  mtype : String
  base_model : String
  adapter_path : String
  size : String
  loaded_at : String
  service : Nat
  memory_usage : String
deriving DecidableEq

/-- The registry `self.loaded_models`: a Python dict keyed by model id.  A
dict holds at most one entry per key. -/
abbrev Registry := List (String × ModelInfo)

/-- Dict lookup `reg[k]` / `k in reg`. -/
def lookupReg (reg : Registry) (k : String) : Option ModelInfo :=
  match reg with
  | [] => none
  | p :: rest => if p.1 == k then some p.2 else lookupReg rest k

/-- Dict assignment `reg[k] = v`. -/
def insertReg (reg : Registry) (k : String) (v : ModelInfo) : Registry :=
  match reg with
  | [] => [(k, v)]
  | p :: rest => if p.1 == k then (k, v) :: rest else p :: insertReg rest k v

/-- Dict removal `reg.pop(k, None)`: the key is removed (a dict holds at most
one entry per key). -/
def eraseReg (reg : Registry) (k : String) : Registry :=
  reg.filter (fun p => !(p.1 == k))

/-! ## Adapter lifecycle (`ModelManager.load_lora_adapter` / `unload_model`) -/

/-- Environment of `load_lora_adapter`: presence of ML dependencies, the
filesystem check `Path(adapter_path).exists()`, `_get_directory_size`, the
current timestamp, and construction of a `LoRAInferenceService` (which either
returns a fresh service handle or raises). -/
structure LoadDeps where
  hasMLDeps : Bool
  pathExists : String → Bool
  dirSize : String → String
  now : String
  construct : String → String → Except String Nat

/-- `Path(p).name`: the last slash-separated component. -/
def lastCompAux : List Char → List Char → List Char
  | [], acc => acc.reverse
  | c :: cs, acc => if c == '/' then lastCompAux cs [] else lastCompAux cs (c :: acc)

/-- Adapter name derived from its path, as `Path(adapter_path).name`. -/
def pathNameOf (p : String) : String :=
  ⟨lastCompAux p.data []⟩

/-- `ModelManager._get_base_model_path`: map a base model name to a model
path, defaulting to the `llama2` entry. -/
def getBaseModelPath (base : String) : String :=
  if base == "llama3" then "meta-llama/Llama-2-7b-hf"
  else if base == "llama2" then "meta-llama/Llama-2-7b-hf"
  else if base == "codellama" then "codellama/CodeLlama-7b-hf"
  else if base == "mistral" then "mistralai/Mistral-7B-v0.1"
  else "meta-llama/Llama-2-7b-hf"

/-- Exceptions `load_lora_adapter` can raise to its caller (plus the
`AttributeError` raised when `self.loaded_models` was never initialized). -/
inductive LoadErr where
  | importError (msg : String)
  | fileNotFound (path : String)
  | serviceInitFailed (msg : String)
  | attributeError
deriving DecidableEq

/-- Success dictionary returned by `load_lora_adapter` (the already-loaded
branch carries no `model_id` key). -/
structure LoadOk where
  success : Bool
  message : String
  model_id : Option String
deriving DecidableEq

/-- `ModelManager.load_lora_adapter` over an explicit registry.  The third
component counts invocations of the underlying `LoRAInferenceService`
construction (the underlying load operation), instrumenting the embedding so
single-flight claims can be stated.  On construction failure the code pops
the id (a no-op, since the entry is only written after construction succeeds)
and re-raises. -/
def load_lora_adapter (d : LoadDeps) (reg : Registry) (adapter_path base_model : String) :
    Except LoadErr LoadOk × Registry × Nat :=
  if !d.hasMLDeps then
    (.error (.importError "ML dependencies not installed. Cannot load LoRA adapter."), reg, 0)
  else if !(d.pathExists adapter_path) then
    (.error (.fileNotFound adapter_path), reg, 0)
  else
    let adapter_name := pathNameOf adapter_path
    let model_id := "lora_" ++ adapter_name
    match lookupReg reg model_id with
    | some _ =>
        (.ok { success := true, message := "Adapter " ++ adapter_name ++ " is already loaded",
               model_id := none }, reg, 0)
    | none =>
        match d.construct (getBaseModelPath base_model) adapter_path with
        | .error e => (.error (.serviceInitFailed e), eraseReg reg model_id, 1)
        | .ok svc =>
            (.ok { success := true, message := "LoRA adapter loaded successfully",
                   model_id := some model_id },
             insertReg reg model_id
               { name := adapter_name, mtype := "lora", base_model := base_model,
                 adapter_path := adapter_path, size := d.dirSize adapter_path,
                 loaded_at := d.now, service := svc, memory_usage := "~2GB" }, 1)

/-- Result dictionary of `ModelManager.unload_model`. -/
structure UnloadResult where
  success : Bool
  error : Option String
  message : String
deriving DecidableEq

/-- `ModelManager.unload_model`: pop the entry if present; both branches
return a result dictionary and neither raises (the `except` arm of the source
is unreachable: membership test, `pop` on a present key and `del` on a local
cannot throw). -/
def unload_model (reg : Registry) (model_id : String) : UnloadResult × Registry :=
  match lookupReg reg model_id with
  | none =>
      ({ success := false, error := some "Model not found",
         message := "Model " ++ model_id ++ " not found in loaded models" }, reg)
  | some _ =>
      ({ success := true, error := none,
         message := "Model " ++ model_id ++ " unloaded successfully" }, eraseReg reg model_id)

/-- Sequential composition of `n` calls to `load_lora_adapter` for the same
adapter.  `load_lora_adapter` contains no `await`, so under asyncio's
cooperative scheduling any set of concurrent callers executes as some
sequential order of whole calls; with identical arguments every order is this
fold.  Returns the final registry, the total number of underlying service
constructions, and each caller's observed result. -/
def loadMany (d : LoadDeps) (adapter_path base_model : String) :
    Nat → Registry → Registry × Nat × List (Except LoadErr LoadOk)
  | 0, reg => (reg, 0, [])
  | n + 1, reg =>
      let r := load_lora_adapter d reg adapter_path base_model
      let rest := loadMany d adapter_path base_model n r.2.1
      (rest.1, r.2.2 + rest.2.1, r.1 :: rest.2.2)

/-! ## The `ModelManager` object (`__init__` and methods reading
`self.loaded_models`) -/

/-- Attribute state of a `ModelManager` instance relevant to the loaded-model
registry.  `__init__` assigns `ollama_model_name`, the embedding model, the
vector store, the LLM and the QA chain, but never assigns `loaded_models`;
an unassigned attribute is `none`, and reading it raises `AttributeError`. -/
structure PyModelManager where
  ollama_model_name : String
  loaded_models : Option Registry

/-- `ModelManager.__init__`: the registry attribute is never initialized. -/
def mkModelManager (ollama_model : String) : PyModelManager :=
  { ollama_model_name := ollama_model, loaded_models := none }

/-- Entry of the list returned by `get_all_loaded_models` (display-only
timestamp and memory fields omitted; they are environment-supplied strings). -/
structure ModelEntry where
  id : String
  name : String
  mtype : String
  status : String
  can_unload : Bool
deriving DecidableEq

/-- `ModelManager.get_all_loaded_models`: builds the static base-model entry,
then iterates `self.loaded_models.items()` — which raises `AttributeError`
when the attribute was never assigned. -/
def get_all_loaded_models (mgr : PyModelManager) : Except LoadErr (List ModelEntry) :=
  let base_models : List ModelEntry :=
    [{ id := "llama3", name := "Llama 3 Base", mtype := "base",
       status := "available", can_unload := false }]
  match mgr.loaded_models with
  | none => .error .attributeError
  | some reg =>
      .ok (base_models ++ reg.map (fun p =>
        { id := p.1, name := p.2.name, mtype := p.2.mtype,
          status := "loaded", can_unload := true }))

/-- `ModelManager.load_lora_adapter` at the object level: the dependency and
path checks run first; the membership test `model_id in self.loaded_models`
then reads the unassigned attribute and raises `AttributeError`, which the
outer handler re-raises. -/
def load_lora_adapter_mgr (d : LoadDeps) (mgr : PyModelManager)
    (adapter_path base_model : String) : Except LoadErr LoadOk × PyModelManager :=
  if !d.hasMLDeps then
    (.error (.importError "ML dependencies not installed. Cannot load LoRA adapter."), mgr)
  else if !(d.pathExists adapter_path) then
    (.error (.fileNotFound adapter_path), mgr)
  else
    match mgr.loaded_models with
    | none => (.error .attributeError, mgr)
    | some reg =>
        let r := load_lora_adapter d reg adapter_path base_model
        (r.1, { mgr with loaded_models := some r.2.1 })

/-! ## RAG answer path (`ModelManager.get_rag_response`) -/

/-- Retrieved document chunk: `doc_id` metadata and page content. -/
structure RagDoc where
  doc_id : String
  page_content : String
deriving DecidableEq

/-- Result of the `RetrievalQA` chain (`return_source_documents=True`). -/
structure QAResult where
  result : String
  source_documents : List RagDoc
deriving DecidableEq

/-- The deterministic guidance message returned when the vector store holds
zero documents (verbatim from `get_rag_response`, including trailing spaces). -/
def noDocumentsMessage : String :=
  "I don\x27t have any documents in my knowledge base yet. \n\nTo use RAG features:\n1. Go to Admin → Model Management \n2. Upload documents in the \"Data Sheets\" tab\n3. Wait for successful ingestion\n4. Then ask questions about your documents\n\nFor now, I\x27ll provide a general response to your question."

/-- Message returned when retrieval finds no relevant documents. -/
def noRelevantDocsMessage (prompt : String) : String :=
  "I searched through your uploaded documents but couldn\x27t find information specifically related to your question: \"" ++ prompt ++ "\"\n\nThis might be because:\n- The information isn\x27t in your uploaded documents\n- The question needs to be more specific\n- The documents need better indexing\n\nI can provide a general answer, or you can try rephrasing your question to be more specific."

/-- Unique source-document ids minus the `unknown` placeholder
(`list(set(...))` followed by the filter; set order is unspecified, modelled
as first-occurrence order). -/
def uniqueDocIds (docs : List RagDoc) : List String :=
  ((docs.map (fun dd => dd.doc_id)).eraseDups).filter (fun i => i != "unknown")

/-- Python `", ".join`. -/
def joinComma : List String → String
  | [] => ""
  | [s] => s
  | s :: t :: rest => s ++ ", " ++ joinComma (t :: rest)

/-- `ModelManager.get_rag_response` over an explicit environment: the vector
store document count, the retriever, and the QA chain (`qa_chain.invoke`,
the text backend).  The second component records whether the QA chain — the
text backend — was invoked. -/
def get_rag_response (collectionCount : Nat) (retrieve : String → List RagDoc)
    (qa : String → QAResult) (prompt : String) : String × Bool :=
  if collectionCount == 0 then (noDocumentsMessage, false)
  else
    let relevant_docs := retrieve prompt
    if relevant_docs.isEmpty then (noRelevantDocsMessage prompt, false)
    else
      let result := qa prompt
      let source_docs := result.source_documents
      if !source_docs.isEmpty then
        let doc_ids := uniqueDocIds source_docs
        if !doc_ids.isEmpty then
          (result.result ++ "\n\n📚 *Based on information from your uploaded documents (IDs: "
             ++ joinComma doc_ids ++ ").*", true)
        else
          (result.result ++ "\n\n📚 *Based on " ++ toString source_docs.length
             ++ " document sections from your knowledge base.*", true)
      else
        (result.result ++ "\n\n*Note: I provided this answer using general knowledge as I couldn\x27t find specific information in your documents.*", true)

/-! ## Ingestion and deletion endpoints (`main.py /ingest_data`,
`/delete_data`) -/

/-- Response dictionary of `/ingest_data`. -/
structure IngestResponse where
  success : Bool
  message : String
  status : String
  doc_id : String
  filename : String
  rag_available : Bool
  rag_indexed : Bool
  error : Option String
deriving DecidableEq

/-- `/ingest_data`: service unavailable, successful processing, and
processing failure all return `success = true`; the actual outcome is carried
by `status` and `rag_indexed`. -/
def ingest_data (serviceAvailable : Bool) (outcome : Except String Unit)
    (filename doc_id : String) : IngestResponse :=
  if !serviceAvailable then
    { success := true,
      message := "Document \x27" ++ filename ++ "\x27 received but RAG indexing is not available. Document stored in database only.",
      status := "stored_no_rag", doc_id := doc_id, filename := filename,
      rag_available := false, rag_indexed := false, error := none }
  else
    match outcome with
    | .ok _ =>
        { success := true,
          message := "Successfully ingested and indexed " ++ filename ++ " with ID: " ++ doc_id,
          status := "fully_processed", doc_id := doc_id, filename := filename,
          rag_available := true, rag_indexed := true, error := none }
    | .error e =>
        { success := true,
          message := "Document \x27" ++ filename ++ "\x27 uploaded but RAG processing failed: " ++ e,
          status := "upload_success_processing_failed", doc_id := doc_id, filename := filename,
          rag_available := true, rag_indexed := false, error := some e }

/-- Response dictionary of `/delete_data`. -/
structure DeleteResponse where
  success : Bool
  message : String
  status : String
  doc_id : String
  deleted_from_rag : Bool
  rag_available : Bool
  error : Option String
deriving DecidableEq

/-- `/delete_data`: service unavailable, deletion, id not found in the index,
and deletion failure all return `success = true`; the outcome is carried by
`status` and `deleted_from_rag`. -/
def delete_data (serviceAvailable : Bool) (outcome : Except String Bool)
    (doc_id : String) : DeleteResponse :=
  if !serviceAvailable then
    { success := true,
      message := "Document with ID \x27" ++ doc_id ++ "\x27 deletion processed. RAG service not available but document can be removed from database.",
      status := "rag_service_unavailable", doc_id := doc_id,
      deleted_from_rag := false, rag_available := false, error := none }
  else
    match outcome with
    | .ok true =>
        { success := true,
          message := "Successfully deleted document with ID: " ++ doc_id,
          status := "deleted_from_rag", doc_id := doc_id,
          deleted_from_rag := true, rag_available := true, error := none }
    | .ok false =>
        { success := true,
          message := "Document with ID \x27" ++ doc_id ++ "\x27 not found in RAG index, but database cleanup can proceed.",
          status := "not_found_in_rag", doc_id := doc_id,
          deleted_from_rag := false, rag_available := true, error := none }
    | .error e =>
        { success := true,
          message := "RAG deletion failed for \x27" ++ doc_id ++ "\x27 but database cleanup can proceed: " ++ e,
          status := "rag_deletion_failed", doc_id := doc_id,
          deleted_from_rag := false, rag_available := true, error := some e }

/-! ## Chat routing (`main.py enhanced_chat_endpoint`) -/

/-- `ChatMessage` pydantic model (conversation turns always carry `role` and
`content`). -/
structure ChatMessage where
  role : String
  content : String
  fileUrl : Option String
  fileName : Option String
  fileType : Option String
deriving DecidableEq

/-- `EnhancedChatRequest` pydantic model (the `type` field is named `rtype`
here; `type` is reserved in Lean). -/
structure EnhancedChatRequest where
  sessionId : String
  message : String
  rtype : Option String
  conversation_context : List ChatMessage
  adapter_id : Option String
  extractedText : Option String
  fileUrl : Option String
  fileName : Option String
  fileType : Option String
  textLength : Nat
  documentType : Option String
  contextEnabled : Bool
  contextInstruction : Option String
  hasActiveContext : Bool
  contextType : Option String
  imageAnalysis : Option String
  contextFileUrl : Option String
  contextFileName : Option String
  isFollowUpMessage : Bool
  hasImageContext : Bool
  imageUrl : Option String
deriving DecidableEq

/-- Image filename extensions recognized by the endpoint. -/
def imageExtensions : List String :=
  [".jpg", ".jpeg", ".png", ".gif", ".bmp", ".webp"]

/-- `any(ext in s.lower() for ext in [...])`. -/
def hasImageExt (s : String) : Bool :=
  imageExtensions.any (fun e => strContains (lowerStr s) e)

/-- The `if/elif` cascade of image-context detection (direct image upload,
context image, `hasImageContext` flag, fallback on filename extension),
returning the detected image url and name. -/
def detectImageBase (req : EnhancedChatRequest) : Option (String × String) :=
  if req.rtype == some "image" && truthy req.fileUrl then
    some (req.fileUrl.getD "", pyOrStr req.fileName "Uploaded Image")
  else if truthy req.contextFileUrl && req.contextType == some "image" then
    some (req.contextFileUrl.getD "", pyOrStr req.contextFileName "Context Image")
  else if req.hasImageContext && truthy req.imageUrl then
    some (req.imageUrl.getD "",
          pyOrStr req.contextFileName (pyOrStr req.fileName "Previous Image"))
  else if truthy req.fileUrl &&
          (req.rtype == some "image"
            || (truthy req.fileName && hasImageExt (req.fileName.getD ""))) then
    some (req.fileUrl.getD "", pyOrStr req.fileName "Image File")
  else none

/-- A url counts as a Cloudinary image in the final check: it contains
`cloudinary.com` and some image extension occurs in its lower-casing. -/
def isCloudinaryImage (u : String) : Bool :=
  strContains u "cloudinary.com"
    && imageExtensions.any (fun e => strContains (lowerStr u) e)

/-- First truthy Cloudinary-image url among the candidate urls. -/
def firstCloudinary : List (Option String) → Option String
  | [] => none
  | u :: rest =>
      match u with
      | some s => if !s.isEmpty && isCloudinaryImage s then some s else firstCloudinary rest
      | none => firstCloudinary rest

/-- The final Cloudinary check of the endpoint: it runs unconditionally over
`[fileUrl, contextFileUrl, imageUrl]` and, on a match, overwrites whatever
the cascade decided. -/
def cloudinaryScan (req : EnhancedChatRequest) : Option (String × String) :=
  match firstCloudinary [req.fileUrl, req.contextFileUrl, req.imageUrl] with
  | some u => some (u, pyOrStr req.fileName (pyOrStr req.contextFileName "Cloudinary Image"))
  | none => none

/-- Overall image-context detection: the cascade result, overridden by the
final Cloudinary scan when that matches. -/
def detectImage (req : EnhancedChatRequest) : Option (String × String) :=
  match cloudinaryScan req with
  | some r => some r
  | none => detectImageBase req

/-- The `document_keywords` list of the smart-RAG decision in the endpoint. -/
def documentKeywords : List String :=
  ["document", "pdf", "file", "uploaded", "nexus ai", "assistant",
   "product overview", "limitations", "pricing", "support contact",
   "maximum file size", "context window", "enterprise", "features"]

/-- The endpoint's `should_use_rag` flag: starts false, set only when
`contextEnabled` holds, the model manager is available, and the message
contains a document keyword. -/
def mainShouldUseRag (mmAvailable : Bool) (req : EnhancedChatRequest) : Bool :=
  req.contextEnabled && mmAvailable
    && documentKeywords.any (fun k => strContains (lowerStr req.message) k)

/-- Document-analysis prompt, text before the user question (document name,
type, content length). -/
def document_prompt_head (req : EnhancedChatRequest) : String :=
  "You are analyzing a document. Here is the content:\n\nDocument Name: "
    ++ showOptPy req.fileName
    ++ "\nDocument Type: " ++ pyOrStr req.documentType "PDF"
    ++ "\nContent Length: " ++ toString (req.extractedText.getD "").length
    ++ " characters\n\nUser Question: "

/-- Document-analysis prompt, text between the user question and the
extracted document content. -/
def document_prompt_mid : String := "\n\nDocument Content:\n"

/-- Document-analysis prompt, trailing instruction. -/
def document_prompt_tail : String :=
  "\n\nPlease analyze this document and answer the user\x27s question based on the content above. Be specific and reference details from the document."

/-- The document-analysis prompt f-string of the endpoint: document metadata,
the user question, and the full extracted text. -/
def document_prompt (req : EnhancedChatRequest) : String :=
  document_prompt_head req ++ req.message ++ document_prompt_mid
    ++ (req.extractedText.getD "") ++ document_prompt_tail

/-- Backend selected for a chat request: the vision model, the RAG answer
path, or the text backend with a final prompt. -/
inductive Route where
  | vision (url : String)
  | ragAnswer (response : String)
  | text (finalPrompt : String)
deriving DecidableEq

/-- Routing decision of `enhanced_chat_endpoint`: image detection first (the
vision path returns early), then the `if/elif` prompt chain — document
branch, smart-RAG branch (falling back to the plain message on a RAG error),
context-enabled branches, explicit context instruction, default.  The
"no image provided" prompt the source assigns before this chain is always
overwritten by one of the chain's branches, so it does not appear. -/
def route (mmAvailable : Bool) (ragOutcome : Except String String)
    (req : EnhancedChatRequest) : Route :=
  match detectImage req with
  | some (url, _) => Route.vision url
  | none =>
      let shouldRag := mainShouldUseRag mmAvailable req
      if req.rtype == some "document" && truthy req.extractedText then
        Route.text (document_prompt req)
      else if shouldRag && mmAvailable then
        match ragOutcome with
        | .ok resp => Route.ragAnswer resp
        | .error _ => Route.text req.message
      else if req.contextEnabled && !shouldRag then Route.text req.message
      else if req.contextEnabled && !mmAvailable then Route.text req.message
      else if truthy req.contextInstruction then
        Route.text ((req.contextInstruction.getD "") ++ "\n\nUser question: " ++ req.message)
      else Route.text req.message

/-- Concrete request fixture: a `document`-typed request carrying non-empty
extracted text together with an image-looking (Cloudinary `.jpg`) file URL. -/
def docRequestWithCloudinaryUrl : EnhancedChatRequest :=
  { sessionId := "s1", message := "What does this document say?",
    rtype := some "document", conversation_context := [], adapter_id := none,
    extractedText := some "Refund policy: 30 days.",
    fileUrl := some "https://res.cloudinary.com/demo/raw/upload/report.jpg",
    fileName := none, fileType := none, textLength := 23, documentType := some "PDF",
    contextEnabled := false, contextInstruction := none, hasActiveContext := false,
    contextType := none, imageAnalysis := none, contextFileUrl := none,
    contextFileName := none, isFollowUpMessage := false, hasImageContext := false,
    imageUrl := none }

/-- Concrete request fixture: a `document`-typed request with non-empty
extracted text and no image-looking field anywhere. -/
def plainDocumentRequest : EnhancedChatRequest :=
  { sessionId := "s2", message := "Summarize the contract",
    rtype := some "document", conversation_context := [], adapter_id := none,
    extractedText := some "Clause 1: the vendor delivers monthly.",
    fileUrl := none, fileName := some "contract.pdf",
    fileType := some "application/pdf", textLength := 38, documentType := some "PDF",
    contextEnabled := false, contextInstruction := none, hasActiveContext := false,
    contextType := none, imageAnalysis := none, contextFileUrl := none,
    contextFileName := none, isFollowUpMessage := false, hasImageContext := false,
    imageUrl := none }

/-! ## Context window builder (`main.py`, messages assembly) -/

/-- Message dictionary sent to the Ollama chat call. -/
structure OllamaMsg where
  role : String
  content : String
deriving DecidableEq

/-- System preamble chosen per request kind. -/
def systemMessageFor (rtype : Option String) (shouldRag : Bool) : String :=
  if rtype == some "document" then
    "You are a helpful AI assistant specialized in document analysis. When analyzing documents, be thorough and specific, referencing the actual content."
  else if shouldRag then
    "You are a helpful AI assistant with access to company knowledge base. Use the provided context to give accurate and specific answers about the company\x27s products and services."
  else
    "You are a helpful AI assistant. Use your general knowledge to provide clear, accurate, and helpful responses to any questions."

/-- The retained history window: `conversation_context[-5:]` (guarded by a
non-emptiness test in the source), each turn forwarded with its role and
content. -/
def contextWindow (ctx : List ChatMessage) : List OllamaMsg :=
  if 0 < ctx.length then
    (ctx.drop (ctx.length - 5)).map (fun m => { role := m.role, content := m.content })
  else []

/-- The full message list sent to the text backend: system preamble, last
five history turns, current message. -/
def buildMessages (rtype : Option String) (shouldRag : Bool)
    (ctx : List ChatMessage) (finalPrompt : String) : List OllamaMsg :=
  ({ role := "system", content := systemMessageFor rtype shouldRag } : OllamaMsg)
    :: (contextWindow ctx ++ [{ role := "user", content := finalPrompt }])

/-! ## Streaming aggregator (`main copy.py llama_response`) -/

/-- Split on single spaces, Python `s.split(' ')`: consecutive separators
produce empty words; always at least one word. -/
def splitSp : List Char → List (List Char)
  | [] => [[]]
  | c :: rest =>
      if c == ' ' then [] :: splitSp rest
      else
        match splitSp rest with
        | [] => [[c]]
        | w :: ws => (c :: w) :: ws

/-- Inverse reading of `splitSp`: words rejoined with single spaces. -/
def joinSplit : List (List Char) → List Char
  | [] => []
  | [w] => w
  | w :: x :: xs => w ++ ' ' :: joinSplit (x :: xs)

/-- One iteration of the aggregator loop: append the chunk to the buffer,
split on spaces, emit every complete word with a trailing space and keep the
last (possibly incomplete) word in the buffer.  Falsy (empty) chunks are
skipped by `if content:`. -/
def stepAgg (buf content : List Char) : List (List Char) × List Char :=
  if content.isEmpty then ([], buf)
  else
    let words := splitSp (buf ++ content)
    if 1 < words.length then
      (words.dropLast.map (fun w => w ++ [' ']), words.getLastD [])
    else ([], buf ++ content)

/-- The aggregator loop over the whole fragment sequence, returning all
emitted chunks and the final buffer. -/
def runAggAux (buf : List Char) : List (List Char) → List (List Char) × List Char
  | [] => ([], buf)
  | f :: fs =>
      let st := stepAgg buf f
      let rest := runAggAux st.2 fs
      (st.1 ++ rest.1, rest.2)

/-- Complete emitted stream of `llama_response`: the loop's chunks, then the
final flush `if word_buffer.strip(): yield word_buffer`. -/
def llamaStreamChunks (frags : List (List Char)) : List (List Char) :=
  let r := runAggAux [] frags
  r.1 ++ (if (pyStrip r.2).isEmpty then [] else [r.2])

/-- Concatenation of a chunk sequence. -/
def joinChunks (l : List (List Char)) : List Char := l.flatten

/-! ## Single-flight load protocol
(`LoRAInferenceService._ensure_loaded`)

The heavy model load for a given adapter happens in `_ensure_loaded` on the
service instance shared through the registry.  Each awaiting task runs: a
fast-path check of `self._loaded`, `async with self._load_lock`, a
double-check of `self._loaded` inside the lock, and — only when still
unloaded — the underlying load, which publishes the pipeline handle and sets
`self._loaded = True` before the lock is released.  Tasks interleave only at
`await` points, which the transition relation below reflects; the critical
section is one atomic step because no competing task can observe its interior
(the lock is held throughout). -/

/-- Control location of one task inside `_ensure_loaded`. -/
inductive Pc where
  | start
  | waiting
  | crit
  | done
deriving DecidableEq

/-- Global protocol state: the `_loaded` flag, the lock holder, the number of
underlying loads performed, the published pipeline handle, each task's
control location, and the handle each finished task observed. -/
structure PState where
  loaded : Bool
  holder : Option Nat
  loads : Nat
  handle : Option Nat
  pcs : List Pc
  obs : List (Option Nat)
deriving DecidableEq

/-- Initial state for `n` concurrent callers of an unloaded service. -/
def initP (n : Nat) : PState :=
  { loaded := false, holder := none, loads := 0, handle := none,
    pcs := List.replicate n Pc.start, obs := List.replicate n none }

/-- Interleaving semantics of `_ensure_loaded` for the task set. -/
inductive EStep : PState → PState → Prop where
  | fastPath (s : PState) (i : Nat)
      (hpc : s.pcs.get? i = some Pc.start) (hld : s.loaded = true) :
      EStep s { s with pcs := s.pcs.set i Pc.done, obs := s.obs.set i s.handle }
  | toWait (s : PState) (i : Nat)
      (hpc : s.pcs.get? i = some Pc.start) (hld : s.loaded = false) :
      EStep s { s with pcs := s.pcs.set i Pc.waiting }
  | acquire (s : PState) (i : Nat)
      (hpc : s.pcs.get? i = some Pc.waiting) (hfree : s.holder = none) :
      EStep s { s with holder := some i, pcs := s.pcs.set i Pc.crit }
  | critSkip (s : PState) (i : Nat)
      (hpc : s.pcs.get? i = some Pc.crit) (hhold : s.holder = some i)
      (hld : s.loaded = true) :
      EStep s { s with holder := none, pcs := s.pcs.set i Pc.done, obs := s.obs.set i s.handle }
  | critLoad (s : PState) (i : Nat)
      (hpc : s.pcs.get? i = some Pc.crit) (hhold : s.holder = some i)
      (hld : s.loaded = false) :
      EStep s { s with loaded := true, loads := s.loads + 1, handle := some i,
                       holder := none, pcs := s.pcs.set i Pc.done, obs := s.obs.set i (some i) }

/-- Reachability under the interleaving semantics. -/
def ReachP : PState → PState → Prop :=
  Relation.ReflTransGen EStep

/-- Protocol invariant: list lengths are stable, the load count matches the
`_loaded` flag, the handle is published exactly when loaded, and every
finished task saw the published handle. -/
def SFInv (n : Nat) (s : PState) : Prop :=
  s.pcs.length = n ∧ s.obs.length = n ∧
  s.loads = (if s.loaded then 1 else 0) ∧
  s.handle.isSome = s.loaded ∧
  (∀ i, s.pcs.get? i = some Pc.done → s.loaded = true ∧ s.obs.get? i = some s.handle)

/-- Concrete load environment fixture: dependencies present, every path
exists, service construction succeeds with handle 7. -/
def okLoadDeps : LoadDeps :=
  { hasMLDeps := true, pathExists := fun _ => true, dirSize := fun _ => "4.0 KB",
    now := "2026-01-01T00:00:00", construct := fun _ _ => .ok 7 }

/-- Protocol state fixture: one task waiting on the load lock. -/
def sfStateWaiting : PState :=
  { loaded := false, holder := none, loads := 0, handle := none,
    pcs := [Pc.waiting], obs := [none] }

/-- Protocol state fixture: one task holding the load lock. -/
def sfStateCrit : PState :=
  { loaded := false, holder := some 0, loads := 0, handle := none,
    pcs := [Pc.crit], obs := [none] }

/-- Protocol state fixture: one task finished after performing the single
underlying load. -/
def sfStateDone : PState :=
  { loaded := true, holder := none, loads := 1, handle := some 0,
    pcs := [Pc.done], obs := [some 0] }

/-! ## Supporting lemmas -/

theorem lookupReg_eraseReg_self (reg : Registry) (k : String) :
    lookupReg (eraseReg reg k) k = none := by
  induction reg with
  | nil => rfl
  | cons p rest ih =>
      unfold eraseReg at ih ⊢
      cases hpk : (p.1 == k) with
      | true => simpa [List.filter_cons, hpk] using ih
      | false => simpa [List.filter_cons, hpk, lookupReg] using ih

theorem eraseReg_absent (reg : Registry) (k : String)
    (h : lookupReg reg k = none) : eraseReg reg k = reg := by
  induction reg with
  | nil => rfl
  | cons p rest ih =>
      unfold lookupReg at h
      unfold eraseReg at ih ⊢
      cases hpk : (p.1 == k) with
      | true => simp [hpk] at h
      | false =>
          simp only [hpk] at h
          simpa [List.filter_cons, hpk] using ih h

theorem lookupReg_insertReg_self (reg : Registry) (k : String) (v : ModelInfo) :
    lookupReg (insertReg reg k v) k = some v := by
  induction reg with
  | nil => simp [insertReg, lookupReg]
  | cons p rest ih =>
      unfold insertReg
      cases hpk : (p.1 == k) with
      | true => simp [lookupReg]
      | false => simp [lookupReg, hpk, ih]

/-! ## Claim theorems: endpoints and ModelManager -/

/-- C10: For every input, the `/ingest_data` and `/delete_data` endpoints
return a response whose `success` field is true in every branch — when the
RAG ingestion service is unavailable, when processing raises, and when the
document id is not found in the index — distinguishing the actual outcome
only through the `status` and indexing flags. -/
theorem c10_endpoints_always_success :
    ∀ (svcI : Bool) (outI : Except String Unit) (fn did : String)
      (svcD : Bool) (outD : Except String Bool) (did2 : String),
    (ingest_data svcI outI fn did).success = true ∧
    (delete_data svcD outD did2).success = true := by
  intro svcI outI fn did svcD outD did2
  constructor
  · cases svcI with
    | false => rfl
    | true => cases outI with
      | ok u => rfl
      | error e => rfl
  · cases svcD with
    | false => rfl
    | true => cases outD with
      | ok b => cases b <;> rfl
      | error e => rfl

/-- C6: For every query, if the retrieval store contains zero documents, the
retrieval answer path `get_rag_response` returns the fixed deterministic
"no documents" guidance message and does not invoke the text backend (the
recorded backend-invocation flag is false), whatever the retriever and QA
chain would do. -/
theorem c6_rag_empty_store (collectionCount : Nat) (retrieve : String → List RagDoc)
    (qa : String → QAResult) (prompt : String) (hc : collectionCount = 0) :
    get_rag_response collectionCount retrieve qa prompt = (noDocumentsMessage, false) := by
  subst hc
  rfl

theorem c6_rag_empty_store_witness :
    (0 : Nat) = 0 ∧
    get_rag_response 0 (fun _ => []) (fun p => { result := p, source_documents := [] })
        "what is the refund policy" = (noDocumentsMessage, false) :=
  ⟨rfl, c6_rag_empty_store 0 (fun _ => []) (fun p => { result := p, source_documents := [] })
      "what is the refund policy" rfl⟩

/-- C8: For every query that matches a greeting pattern and has fewer than
five words, the retrieval gate `should_use_rag` returns false, regardless of
whether the query also contains document-indicator terms or question-pattern
prefixes: the greeting check runs first and short-circuits the gate, which is
a pure function of the query text. -/
theorem c8_greeting_precedence (q : List Char) (h : isGreetingShort q = true) :
    should_use_rag q = false := by
  simp [should_use_rag, h]

theorem c8_greeting_precedence_witness :
    isGreetingShort ("hi what is price".data) = true ∧
    containsSub (("hi what is price".data).map Char.toLower) ("what".data) = true ∧
    containsSub (("hi what is price".data).map Char.toLower) ("what is".data) = true ∧
    should_use_rag ("hi what is price".data) = false :=
  ⟨by decide, by decide, by decide, c8_greeting_precedence ("hi what is price".data) (by decide)⟩

/-- C7: For every conversation history and current message, the message list
sent to the text backend has at most 5 + 2 entries (system preamble, last
five history turns, current message); the retained history is exactly
`conversation_context[-5:]`, a suffix of the original history, so retained
turns keep their chronological order and the oldest entries are dropped
first. -/
theorem c7_context_window_bounded (rtype : Option String) (shouldRag : Bool)
    (ctx : List ChatMessage) (finalPrompt : String) :
    (buildMessages rtype shouldRag ctx finalPrompt).length ≤ 5 + 2 ∧
    contextWindow ctx = (ctx.drop (ctx.length - 5)).map
      (fun m => ({ role := m.role, content := m.content } : OllamaMsg)) ∧
    List.IsSuffix (ctx.drop (ctx.length - 5)) ctx := by
  have hcw : contextWindow ctx = (ctx.drop (ctx.length - 5)).map
      (fun m => ({ role := m.role, content := m.content } : OllamaMsg)) := by
    cases ctx with
    | nil => simp [contextWindow]
    | cons a l => simp [contextWindow]
  refine ⟨?_, hcw, List.drop_suffix _ _⟩
  have hlen : (buildMessages rtype shouldRag ctx finalPrompt).length =
      (contextWindow ctx).length + 2 := by
    simp [buildMessages]
  rw [hlen, hcw]
  simp only [List.length_map, List.length_drop]
  omega

/-- C9: On a freshly constructed `ModelManager`, `get_all_loaded_models`
raises `AttributeError`, and so does `load_lora_adapter` whenever the
adapter path exists and the ML dependencies are present, because `__init__`
never initializes the `loaded_models` attribute those operations read. -/
theorem c9_fresh_manager_attribute_error (m : String) (d : LoadDeps)
    (adapter_path base_model : String)
    (hml : d.hasMLDeps = true) (hpath : d.pathExists adapter_path = true) :
    get_all_loaded_models (mkModelManager m) = .error .attributeError ∧
    (load_lora_adapter_mgr d (mkModelManager m) adapter_path base_model).1 =
      .error .attributeError := by
  constructor
  · rfl
  · simp [load_lora_adapter_mgr, mkModelManager, hml, hpath]

theorem c9_fresh_manager_witness :
    ({ hasMLDeps := true, pathExists := fun _ => true, dirSize := fun _ => "4.0 KB",
       now := "2026-01-01T00:00:00", construct := fun _ _ => .ok 7 } : LoadDeps).hasMLDeps = true ∧
    get_all_loaded_models (mkModelManager "llama3") = .error .attributeError ∧
    (load_lora_adapter_mgr
        { hasMLDeps := true, pathExists := fun _ => true, dirSize := fun _ => "4.0 KB",
          now := "2026-01-01T00:00:00", construct := fun _ _ => .ok 7 }
        (mkModelManager "llama3")
        "models/lora_adapters/trained/sales-v2" "llama3").1 = .error .attributeError := by
  refine ⟨rfl, ?_, ?_⟩
  · exact (c9_fresh_manager_attribute_error "llama3"
      { hasMLDeps := true, pathExists := fun _ => true, dirSize := fun _ => "4.0 KB",
        now := "2026-01-01T00:00:00", construct := fun _ _ => .ok 7 }
      "models/lora_adapters/trained/sales-v2" "llama3" rfl rfl).1
  · exact (c9_fresh_manager_attribute_error "llama3"
      { hasMLDeps := true, pathExists := fun _ => true, dirSize := fun _ => "4.0 KB",
        now := "2026-01-01T00:00:00", construct := fun _ _ => .ok 7 }
      "models/lora_adapters/trained/sales-v2" "llama3" rfl rfl).2

/-- C5: For every adapter id whose handle is currently loaded, calling
`unload_model` twice in succession returns a success result the first time
and a not-found result the second time; both calls return result
dictionaries, neither raises. -/
theorem c5_unload_twice (reg : Registry) (model_id : String) (info : ModelInfo)
    (hin : lookupReg reg model_id = some info) :
    (unload_model reg model_id).1 =
      { success := true, error := none,
        message := "Model " ++ model_id ++ " unloaded successfully" } ∧
    (unload_model (unload_model reg model_id).2 model_id).1 =
      { success := false, error := some "Model not found",
        message := "Model " ++ model_id ++ " not found in loaded models" } := by
  have h2 : (unload_model reg model_id).2 = eraseReg reg model_id := by
    simp [unload_model, hin]
  constructor
  · simp [unload_model, hin]
  · rw [h2]
    simp [unload_model, lookupReg_eraseReg_self]

theorem c5_unload_twice_witness :
    lookupReg [("lora_sales-v2",
      { name := "sales-v2", mtype := "lora", base_model := "llama3",
        adapter_path := "models/lora_adapters/trained/sales-v2", size := "4.0 KB",
        loaded_at := "2026-01-01T00:00:00", service := 7, memory_usage := "~2GB" })]
      "lora_sales-v2" = some
      { name := "sales-v2", mtype := "lora", base_model := "llama3",
        adapter_path := "models/lora_adapters/trained/sales-v2", size := "4.0 KB",
        loaded_at := "2026-01-01T00:00:00", service := 7, memory_usage := "~2GB" } ∧
    (unload_model [("lora_sales-v2",
      { name := "sales-v2", mtype := "lora", base_model := "llama3",
        adapter_path := "models/lora_adapters/trained/sales-v2", size := "4.0 KB",
        loaded_at := "2026-01-01T00:00:00", service := 7, memory_usage := "~2GB" })]
      "lora_sales-v2").1.success = true ∧
    (unload_model (unload_model [("lora_sales-v2",
      { name := "sales-v2", mtype := "lora", base_model := "llama3",
        adapter_path := "models/lora_adapters/trained/sales-v2", size := "4.0 KB",
        loaded_at := "2026-01-01T00:00:00", service := 7, memory_usage := "~2GB" })]
      "lora_sales-v2").2 "lora_sales-v2").1.success = false := by
  refine ⟨by decide, ?_, ?_⟩
  · have h := (c5_unload_twice [("lora_sales-v2",
      { name := "sales-v2", mtype := "lora", base_model := "llama3",
        adapter_path := "models/lora_adapters/trained/sales-v2", size := "4.0 KB",
        loaded_at := "2026-01-01T00:00:00", service := 7, memory_usage := "~2GB" })]
      "lora_sales-v2"
      { name := "sales-v2", mtype := "lora", base_model := "llama3",
        adapter_path := "models/lora_adapters/trained/sales-v2", size := "4.0 KB",
        loaded_at := "2026-01-01T00:00:00", service := 7, memory_usage := "~2GB" }
      (by decide)).1
    rw [h]
  · have h := (c5_unload_twice [("lora_sales-v2",
      { name := "sales-v2", mtype := "lora", base_model := "llama3",
        adapter_path := "models/lora_adapters/trained/sales-v2", size := "4.0 KB",
        loaded_at := "2026-01-01T00:00:00", service := 7, memory_usage := "~2GB" })]
      "lora_sales-v2"
      { name := "sales-v2", mtype := "lora", base_model := "llama3",
        adapter_path := "models/lora_adapters/trained/sales-v2", size := "4.0 KB",
        loaded_at := "2026-01-01T00:00:00", service := 7, memory_usage := "~2GB" }
      (by decide)).2
    rw [h]

/-- C4: For every adapter id, if `load_lora_adapter` reaches the service
construction and it fails, the failure is raised to the caller, the adapter
is absent from the registry afterwards (the entry is only written after
construction succeeds, and the id is popped on failure), and a subsequent
call for the same id re-attempts the load — performing a fresh construction
and returning a fresh-load success — rather than being stuck in a failed
state. -/
theorem c4_load_failure_reverts_and_retries
    (d d2 : LoadDeps) (reg : Registry) (adapter_path base_model e : String) (svc : Nat)
    (hml : d.hasMLDeps = true) (hpath : d.pathExists adapter_path = true)
    (hcon : d.construct (getBaseModelPath base_model) adapter_path = .error e)
    (habs : lookupReg reg ("lora_" ++ pathNameOf adapter_path) = none)
    (hml2 : d2.hasMLDeps = true) (hpath2 : d2.pathExists adapter_path = true)
    (hcon2 : d2.construct (getBaseModelPath base_model) adapter_path = .ok svc) :
    (load_lora_adapter d reg adapter_path base_model).1 = .error (.serviceInitFailed e) ∧
    lookupReg (load_lora_adapter d reg adapter_path base_model).2.1
      ("lora_" ++ pathNameOf adapter_path) = none ∧
    (load_lora_adapter d2 (load_lora_adapter d reg adapter_path base_model).2.1
        adapter_path base_model).1 =
      .ok { success := true, message := "LoRA adapter loaded successfully",
            model_id := some ("lora_" ++ pathNameOf adapter_path) } ∧
    (load_lora_adapter d2 (load_lora_adapter d reg adapter_path base_model).2.1
        adapter_path base_model).2.2 = 1 := by
  have h1 : load_lora_adapter d reg adapter_path base_model =
      (.error (.serviceInitFailed e),
       eraseReg reg ("lora_" ++ pathNameOf adapter_path), 1) := by
    simp [load_lora_adapter, hml, hpath, habs, hcon]
  have habs2 : lookupReg (eraseReg reg ("lora_" ++ pathNameOf adapter_path))
      ("lora_" ++ pathNameOf adapter_path) = none :=
    lookupReg_eraseReg_self _ _
  refine ⟨by rw [h1], by rw [h1]; exact habs2, ?_, ?_⟩
  · rw [h1]
    simp [load_lora_adapter, hml2, hpath2, habs2, hcon2]
  · rw [h1]
    simp [load_lora_adapter, hml2, hpath2, habs2, hcon2]

theorem c4_load_failure_witness :
    lookupReg ([] : Registry) ("lora_" ++ pathNameOf "models/lora_adapters/trained/sales-v2")
      = none ∧
    (load_lora_adapter
        { hasMLDeps := true, pathExists := fun _ => true, dirSize := fun _ => "4.0 KB",
          now := "2026-01-01T00:00:00", construct := fun _ _ => .error "CUDA out of memory" }
        [] "models/lora_adapters/trained/sales-v2" "llama3").1 =
      .error (.serviceInitFailed "CUDA out of memory") ∧
    (load_lora_adapter
        { hasMLDeps := true, pathExists := fun _ => true, dirSize := fun _ => "4.0 KB",
          now := "2026-01-01T00:00:00", construct := fun _ _ => .ok 7 }
        (load_lora_adapter
          { hasMLDeps := true, pathExists := fun _ => true, dirSize := fun _ => "4.0 KB",
            now := "2026-01-01T00:00:00", construct := fun _ _ => .error "CUDA out of memory" }
          [] "models/lora_adapters/trained/sales-v2" "llama3").2.1
        "models/lora_adapters/trained/sales-v2" "llama3").1 =
      .ok { success := true, message := "LoRA adapter loaded successfully",
            model_id := some ("lora_" ++ pathNameOf "models/lora_adapters/trained/sales-v2") } := by
  have h := c4_load_failure_reverts_and_retries
    { hasMLDeps := true, pathExists := fun _ => true, dirSize := fun _ => "4.0 KB",
      now := "2026-01-01T00:00:00", construct := fun _ _ => .error "CUDA out of memory" }
    { hasMLDeps := true, pathExists := fun _ => true, dirSize := fun _ => "4.0 KB",
      now := "2026-01-01T00:00:00", construct := fun _ _ => .ok 7 }
    [] "models/lora_adapters/trained/sales-v2" "llama3" "CUDA out of memory" 7
    rfl rfl rfl rfl rfl rfl rfl
  exact ⟨rfl, h.1, h.2.2.1⟩


/-! ## Claim theorems: chat routing -/

/-- C2 (amended): For every inbound chat request in which the endpoint's
image-context detection finds nothing — no image-typed upload, no image
context fields, no image-extension filename, and no Cloudinary image URL —
if the request type is `document` and the extractedText field is non-empty,
the router builds the document-analysis prompt (document metadata, the user
question, and the full extracted text) and sends it to the text backend,
regardless of the retrieval parameters.  The image detection runs before the
document branch, so the document branch wins only in its absence. -/
theorem c2_document_branch_when_no_image (mmAvailable : Bool)
    (ragOutcome : Except String String) (req : EnhancedChatRequest)
    (himg : detectImage req = none) (hty : req.rtype = some "document")
    (hex : truthy req.extractedText = true) :
    route mmAvailable ragOutcome req = Route.text (document_prompt req) ∧
    document_prompt req = document_prompt_head req ++ req.message ++ document_prompt_mid
      ++ (req.extractedText.getD "") ++ document_prompt_tail := by
  constructor
  · simp [route, himg, hty, hex]
  · rfl

/-- C2 counterexample: a request with type `document`, non-empty
extractedText and an image-looking (Cloudinary, `.jpg`) file URL is routed to
the vision path, not to the text backend with a document-analysis prompt —
refuting the claim that the document branch wins over the vision path in that
case. -/
theorem c2_counterexample :
    docRequestWithCloudinaryUrl.rtype = some "document" ∧
    truthy docRequestWithCloudinaryUrl.extractedText = true ∧
    route true (.ok "") docRequestWithCloudinaryUrl =
      Route.vision "https://res.cloudinary.com/demo/raw/upload/report.jpg" ∧
    route true (.ok "") docRequestWithCloudinaryUrl ≠
      Route.text (document_prompt docRequestWithCloudinaryUrl) := by
  refine ⟨rfl, by decide, by decide, by decide⟩

theorem c2_document_branch_witness :
    detectImage plainDocumentRequest = none ∧
    route false (.error "") plainDocumentRequest =
      Route.text (document_prompt plainDocumentRequest) :=
  ⟨by decide,
   (c2_document_branch_when_no_image false (.error "") plainDocumentRequest
      (by decide) rfl (by decide)).1⟩

/-! ## Streaming aggregator lemmas -/

theorem splitSp_ne_nil (l : List Char) : splitSp l ≠ [] := by
  cases l with
  | nil => simp [splitSp]
  | cons c rest =>
      unfold splitSp
      cases h : (c == ' ') with
      | true => simp [h]
      | false =>
          cases hr : splitSp rest with
          | nil => simp [h, hr]
          | cons w ws => simp [h, hr]

theorem joinSplit_splitSp (l : List Char) : joinSplit (splitSp l) = l := by
  induction l with
  | nil => rfl
  | cons c rest ih =>
      unfold splitSp
      cases h : (c == ' ') with
      | true =>
          have hc : c = ' ' := by simpa using h
          cases hws : splitSp rest with
          | nil => exact absurd hws (splitSp_ne_nil rest)
          | cons w ws =>
              rw [hws] at ih
              subst hc
              simp [joinSplit, ih]
      | false =>
          cases hws : splitSp rest with
          | nil => exact absurd hws (splitSp_ne_nil rest)
          | cons w ws =>
              rw [hws] at ih
              cases ws with
              | nil => simp [h, hws, joinSplit] at ih ⊢; exact ih
              | cons x xs => simp [h, hws, joinSplit] at ih ⊢; simpa using ih

theorem emit_join (ws : List (List Char)) (hne : ws ≠ []) :
    (ws.dropLast.map (fun w => w ++ [' '])).flatten ++ ws.getLastD [] = joinSplit ws := by
  induction ws with
  | nil => exact absurd rfl hne
  | cons w rest ih =>
      cases rest with
      | nil => simp [joinSplit]
      | cons x xs =>
          have h := ih (by simp)
          simp only [List.dropLast_cons₂, List.map_cons, List.flatten_cons,
            List.getLastD_cons, joinSplit]
          rw [List.append_assoc]
          simp only [List.getLastD_cons] at h
          rw [h]
          simp

theorem stepAgg_inv (buf content : List Char) :
    (stepAgg buf content).1.flatten ++ (stepAgg buf content).2 = buf ++ content := by
  unfold stepAgg
  cases hc : content.isEmpty with
  | true =>
      have : content = [] := List.isEmpty_iff.mp hc
      subst this
      simp
  | false =>
      simp only [hc, Bool.false_eq_true, if_false]
      by_cases hlen : 1 < (splitSp (buf ++ content)).length
      · simp only [hlen, if_true]
        rw [emit_join _ (splitSp_ne_nil _), joinSplit_splitSp]
      · simp [hlen]

theorem runAgg_inv (frags : List (List Char)) : ∀ buf : List Char,
    (runAggAux buf frags).1.flatten ++ (runAggAux buf frags).2 = buf ++ frags.flatten := by
  induction frags with
  | nil => intro buf; simp [runAggAux]
  | cons f fs ih =>
      intro buf
      unfold runAggAux
      simp only [List.flatten_append, List.flatten_cons]
      rw [List.append_assoc, ih (stepAgg buf f).2, ← List.append_assoc, stepAgg_inv,
        List.append_assoc]

/-! ## Claim theorems: streaming aggregator -/

/-- C3 (amended): For every finite fragment sequence, concatenating all
chunks emitted by the word-boundary streaming aggregator reproduces the
concatenation of the input fragments exactly — no characters lost,
duplicated, or reordered — provided the trailing buffer left after the last
fragment is empty or contains at least one non-whitespace character.  (When
the trailing buffer is nonempty but consists entirely of whitespace, the
final `if word_buffer.strip()` flush drops it.) -/
theorem c3_stream_roundtrip (frags : List (List Char))
    (h : (runAggAux [] frags).2 = [] ∨
         (pyStrip (runAggAux [] frags).2).isEmpty = false) :
    joinChunks (llamaStreamChunks frags) = joinChunks frags := by
  have hinv := runAgg_inv frags []
  simp only [List.nil_append] at hinv
  unfold llamaStreamChunks joinChunks
  rcases h with h | h
  · rw [h] at hinv
    simp only [h, pyStrip]
    simp only [List.dropWhile_nil, List.reverse_nil, List.isEmpty_nil, if_true]
    simpa using hinv
  · simp only [h, Bool.false_eq_true, if_false]
    rw [List.flatten_append]
    simpa using hinv

/-- C3 counterexample: the single-fragment input `"\n"` refutes the claim as
stated: the aggregator emits nothing for it (the trailing buffer `"\n"`
fails the `strip()` truthiness test and is never flushed), so the
concatenated output is empty while the input concatenation is `"\n"` — a
character is lost. -/
theorem c3_counterexample :
    llamaStreamChunks [['\n']] = [] ∧
    joinChunks (llamaStreamChunks [['\n']]) ≠ joinChunks [['\n']] :=
  ⟨by decide, by decide⟩

theorem c3_stream_roundtrip_witness :
    (pyStrip (runAggAux [] [['h', 'e', 'l'], ['l', 'o', ' ', 'w', 'o'], ['r', 'l', 'd']]).2).isEmpty
        = false ∧
    joinChunks (llamaStreamChunks [['h', 'e', 'l'], ['l', 'o', ' ', 'w', 'o'], ['r', 'l', 'd']]) =
      joinChunks [['h', 'e', 'l'], ['l', 'o', ' ', 'w', 'o'], ['r', 'l', 'd']] :=
  ⟨by decide,
   c3_stream_roundtrip [['h', 'e', 'l'], ['l', 'o', ' ', 'w', 'o'], ['r', 'l', 'd']]
     (Or.inr (by decide))⟩

/-! ## Single-flight protocol lemmas -/

theorem get?_set_of_ne {α : Type} (l : List α) (a : α) :
    ∀ i j, i ≠ j → (l.set i a).get? j = l.get? j := by
  induction l with
  | nil => intro i j _; simp
  | cons b rest ih =>
      intro i j hij
      cases i with
      | zero =>
          cases j with
          | zero => exact absurd rfl hij
          | succ j2 => simp [List.set]
      | succ i2 =>
          cases j with
          | zero => simp [List.set]
          | succ j2 => simpa [List.set] using ih i2 j2 (by omega)

theorem get?_set_self_of_lt {α : Type} (l : List α) (a : α) :
    ∀ i, i < l.length → (l.set i a).get? i = some a := by
  induction l with
  | nil => intro i h; simp at h
  | cons b rest ih =>
      intro i h
      cases i with
      | zero => rfl
      | succ i2 => simpa [List.set] using ih i2 (by simpa using h)

theorem get?_some_implies_lt {α : Type} (l : List α) (i : Nat) (x : α)
    (h : l.get? i = some x) : i < l.length := by
  by_contra hlt
  rw [List.get?_eq_none.mpr (le_of_not_lt hlt)] at h
  exact Option.noConfusion h

theorem get?_replicate_same {α : Type} (a b : α) (n : Nat) :
    ∀ i, (List.replicate n a).get? i = some b → b = a := by
  induction n with
  | zero => intro i h; simp [List.replicate] at h
  | succ m ih =>
      intro i h
      cases i with
      | zero =>
          rw [List.replicate_succ] at h
          exact (Option.some_inj.mp h).symm
      | succ j =>
          rw [List.replicate_succ] at h
          exact ih j h

theorem sfInv_init (n : Nat) : SFInv n (initP n) := by
  refine ⟨by simp [initP], by simp [initP], by simp [initP], by simp [initP], ?_⟩
  intro i h
  have := get?_replicate_same Pc.start Pc.done n i (by simpa [initP] using h)
  exact absurd this (by decide)

theorem sfInv_step {n : Nat} {s s2 : PState} (hinv : SFInv n s) (hstep : EStep s s2) :
    SFInv n s2 := by
  obtain ⟨hlp, hlo, hloads, hhand, hdone⟩ := hinv
  cases hstep with
  | fastPath i hpc hld =>
      refine ⟨?_, ?_, hloads, hhand, ?_⟩
      · show (s.pcs.set i Pc.done).length = n
        rw [List.length_set]; exact hlp
      · show (s.obs.set i s.handle).length = n
        rw [List.length_set]; exact hlo
      · intro j hj
        have hj2 : (s.pcs.set i Pc.done).get? j = some Pc.done := hj
        by_cases hij : i = j
        · subst hij
          have hilt : i < s.obs.length := by
            rw [hlo, ← hlp]; exact get?_some_implies_lt _ _ _ hpc
          exact ⟨hld, get?_set_self_of_lt s.obs s.handle i hilt⟩
        · rw [get?_set_of_ne s.pcs Pc.done i j hij] at hj2
          obtain ⟨hl2, ho2⟩ := hdone j hj2
          refine ⟨hl2, ?_⟩
          show (s.obs.set i s.handle).get? j = some s.handle
          rw [get?_set_of_ne s.obs s.handle i j hij]; exact ho2
  | toWait i hpc hld =>
      refine ⟨?_, hlo, hloads, hhand, ?_⟩
      · show (s.pcs.set i Pc.waiting).length = n
        rw [List.length_set]; exact hlp
      · intro j hj
        have hj2 : (s.pcs.set i Pc.waiting).get? j = some Pc.done := hj
        by_cases hij : i = j
        · subst hij
          have hilt : i < s.pcs.length := get?_some_implies_lt _ _ _ hpc
          rw [get?_set_self_of_lt s.pcs Pc.waiting i hilt] at hj2
          exact absurd (Option.some_inj.mp hj2) (by decide)
        · rw [get?_set_of_ne s.pcs Pc.waiting i j hij] at hj2
          have hcontra := (hdone j hj2).1
          rw [hld] at hcontra
          exact absurd hcontra (by decide)
  | acquire i hpc hfree =>
      refine ⟨?_, hlo, hloads, hhand, ?_⟩
      · show (s.pcs.set i Pc.crit).length = n
        rw [List.length_set]; exact hlp
      · intro j hj
        have hj2 : (s.pcs.set i Pc.crit).get? j = some Pc.done := hj
        by_cases hij : i = j
        · subst hij
          have hilt : i < s.pcs.length := get?_some_implies_lt _ _ _ hpc
          rw [get?_set_self_of_lt s.pcs Pc.crit i hilt] at hj2
          exact absurd (Option.some_inj.mp hj2) (by decide)
        · rw [get?_set_of_ne s.pcs Pc.crit i j hij] at hj2
          exact hdone j hj2
  | critSkip i hpc hhold hld =>
      refine ⟨?_, ?_, hloads, hhand, ?_⟩
      · show (s.pcs.set i Pc.done).length = n
        rw [List.length_set]; exact hlp
      · show (s.obs.set i s.handle).length = n
        rw [List.length_set]; exact hlo
      · intro j hj
        have hj2 : (s.pcs.set i Pc.done).get? j = some Pc.done := hj
        by_cases hij : i = j
        · subst hij
          have hilt : i < s.obs.length := by
            rw [hlo, ← hlp]; exact get?_some_implies_lt _ _ _ hpc
          exact ⟨hld, get?_set_self_of_lt s.obs s.handle i hilt⟩
        · rw [get?_set_of_ne s.pcs Pc.done i j hij] at hj2
          obtain ⟨hl2, ho2⟩ := hdone j hj2
          refine ⟨hl2, ?_⟩
          show (s.obs.set i s.handle).get? j = some s.handle
          rw [get?_set_of_ne s.obs s.handle i j hij]; exact ho2
  | critLoad i hpc hhold hld =>
      have hl0 : s.loads = 0 := by rw [hloads, hld]; rfl
      refine ⟨?_, ?_, ?_, ?_, ?_⟩
      · show (s.pcs.set i Pc.done).length = n
        rw [List.length_set]; exact hlp
      · show (s.obs.set i (some i)).length = n
        rw [List.length_set]; exact hlo
      · show s.loads + 1 = if true = true then 1 else 0
        rw [hl0]; rfl
      · show (some i).isSome = true
        rfl
      · intro j hj
        have hj2 : (s.pcs.set i Pc.done).get? j = some Pc.done := hj
        by_cases hij : i = j
        · subst hij
          have hilt : i < s.obs.length := by
            rw [hlo, ← hlp]; exact get?_some_implies_lt _ _ _ hpc
          exact ⟨rfl, get?_set_self_of_lt s.obs (some i) i hilt⟩
        · rw [get?_set_of_ne s.pcs Pc.done i j hij] at hj2
          have hcontra := (hdone j hj2).1
          rw [hld] at hcontra
          exact absurd hcontra (by decide)

theorem sfInv_reach {n : Nat} {s : PState} (h : ReachP (initP n) s) : SFInv n s := by
  induction h with
  | refl => exact sfInv_init n
  | tail hsteps hstep ih => exact sfInv_step ih hstep

theorem load_lora_adapter_already (d : LoadDeps) (reg : Registry)
    (adapter_path base_model : String) (info : ModelInfo)
    (hml : d.hasMLDeps = true) (hpath : d.pathExists adapter_path = true)
    (hin : lookupReg reg ("lora_" ++ pathNameOf adapter_path) = some info) :
    load_lora_adapter d reg adapter_path base_model =
      (.ok { success := true, message := "Adapter " ++ pathNameOf adapter_path ++ " is already loaded", model_id := none }, reg, 0) := by
  simp [load_lora_adapter, hml, hpath, hin]

theorem loadMany_already (d : LoadDeps) (adapter_path base_model : String) (info : ModelInfo)
    (hml : d.hasMLDeps = true) (hpath : d.pathExists adapter_path = true) :
    ∀ (k : Nat) (reg : Registry),
      lookupReg reg ("lora_" ++ pathNameOf adapter_path) = some info →
      loadMany d adapter_path base_model k reg =
        (reg, 0, List.replicate k
          (.ok { success := true, message := "Adapter " ++ pathNameOf adapter_path ++ " is already loaded", model_id := none })) := by
  intro k
  induction k with
  | zero => intro reg hin; rfl
  | succ j ih =>
      intro reg hin
      simp only [loadMany]
      rw [load_lora_adapter_already d reg adapter_path base_model info hml hpath hin]
      simp only []
      rw [ih reg hin]
      simp [List.replicate_succ]

/-! ## Claim theorem: single-flight adapter loading -/

/-- C1: For every adapter id, when N callers concurrently invoke the adapter
load operation for that id, exactly one underlying load operation is
performed and all N callers observe the same ready handle, and a caller
arriving while a load is in progress awaits that same load rather than
starting a duplicate.  Two facts capture this.  (a) `load_lora_adapter`
contains no `await`, so under asyncio cooperative scheduling N concurrent
calls run as N whole calls in sequence (`loadMany`): exactly one underlying
service construction happens, every caller receives a success result, and
the registry afterwards maps the id to the single constructed service — the
one ready handle every caller reaches through the registry.  (b) The heavy
model load on that shared service (`_ensure_loaded`) is guarded by an
asyncio lock with a double-check: in every reachable interleaving of the
protocol in which all m tasks finished, the underlying load ran exactly once
and all m tasks observed the same published handle — a task arriving during
the load waits on the lock and then takes the double-check exit. -/
theorem c1_single_flight (d : LoadDeps) (reg : Registry) (adapter_path base_model : String)
    (svc : Nat) (n m : Nat) (s : PState)
    (hml : d.hasMLDeps = true) (hpath : d.pathExists adapter_path = true)
    (hcon : d.construct (getBaseModelPath base_model) adapter_path = .ok svc)
    (habs : lookupReg reg ("lora_" ++ pathNameOf adapter_path) = none)
    (hn : 1 ≤ n) (hm : 1 ≤ m)
    (hreach : ReachP (initP m) s)
    (hdone : ∀ i, i < m → s.pcs.get? i = some Pc.done) :
    (loadMany d adapter_path base_model n reg).2.1 = 1 ∧
    (∀ r ∈ (loadMany d adapter_path base_model n reg).2.2,
      ∃ ok : LoadOk, r = Except.ok ok ∧ ok.success = true) ∧
    (∃ info : ModelInfo,
      lookupReg (loadMany d adapter_path base_model n reg).1
        ("lora_" ++ pathNameOf adapter_path) = some info ∧ info.service = svc) ∧
    s.loads = 1 ∧
    (∃ hv : Nat, ∀ i, i < m → s.obs.get? i = some (some hv)) := by
  obtain ⟨hlp, hlo, hloads, hhand, hdoneinv⟩ := sfInv_reach (n := m) hreach
  have h0 := hdoneinv 0 (hdone 0 (by omega))
  have hloaded : s.loaded = true := h0.1
  have hloads1 : s.loads = 1 := by rw [hloads, hloaded]; rfl
  obtain ⟨hv, hhv⟩ : ∃ hv : Nat, s.handle = some hv := by
    rw [hloaded] at hhand
    cases hh : s.handle with
    | none => rw [hh] at hhand; simp at hhand
    | some v => exact ⟨v, rfl⟩
  obtain ⟨k, rfl⟩ : ∃ k, n = k + 1 := ⟨n - 1, by omega⟩
  have h1 : load_lora_adapter d reg adapter_path base_model =
      (.ok { success := true, message := "LoRA adapter loaded successfully", model_id := some ("lora_" ++ pathNameOf adapter_path) },
       insertReg reg ("lora_" ++ pathNameOf adapter_path)
         { name := pathNameOf adapter_path, mtype := "lora", base_model := base_model, adapter_path := adapter_path, size := d.dirSize adapter_path, loaded_at := d.now, service := svc, memory_usage := "~2GB" },
       1) := by
    simp [load_lora_adapter, hml, hpath, habs, hcon]
  have hlk := lookupReg_insertReg_self reg ("lora_" ++ pathNameOf adapter_path)
    { name := pathNameOf adapter_path, mtype := "lora", base_model := base_model, adapter_path := adapter_path, size := d.dirSize adapter_path, loaded_at := d.now, service := svc, memory_usage := "~2GB" }
  have h2 := loadMany_already d adapter_path base_model
    { name := pathNameOf adapter_path, mtype := "lora", base_model := base_model, adapter_path := adapter_path, size := d.dirSize adapter_path, loaded_at := d.now, service := svc, memory_usage := "~2GB" }
    hml hpath k
    (insertReg reg ("lora_" ++ pathNameOf adapter_path)
      { name := pathNameOf adapter_path, mtype := "lora", base_model := base_model, adapter_path := adapter_path, size := d.dirSize adapter_path, loaded_at := d.now, service := svc, memory_usage := "~2GB" })
    hlk
  have key : loadMany d adapter_path base_model (k + 1) reg =
      (insertReg reg ("lora_" ++ pathNameOf adapter_path)
         { name := pathNameOf adapter_path, mtype := "lora", base_model := base_model, adapter_path := adapter_path, size := d.dirSize adapter_path, loaded_at := d.now, service := svc, memory_usage := "~2GB" },
       1,
       (.ok { success := true, message := "LoRA adapter loaded successfully", model_id := some ("lora_" ++ pathNameOf adapter_path) }) ::
         List.replicate k
           (.ok { success := true, message := "Adapter " ++ pathNameOf adapter_path ++ " is already loaded", model_id := none })) := by
    simp only [loadMany]
    rw [h1]
    simp only []
    rw [h2]
    rfl
  refine ⟨by rw [key], ?_, ?_, hloads1, ⟨hv, ?_⟩⟩
  · intro r hr
    rw [key] at hr
    rcases List.mem_cons.mp hr with h | h
    · exact ⟨_, h, rfl⟩
    · exact ⟨_, List.eq_of_mem_replicate h, rfl⟩
  · refine ⟨{ name := pathNameOf adapter_path, mtype := "lora", base_model := base_model, adapter_path := adapter_path, size := d.dirSize adapter_path, loaded_at := d.now, service := svc, memory_usage := "~2GB" }, ?_, rfl⟩
    rw [key]
    exact hlk
  · intro i hi
    have := (hdoneinv i (hdone i hi)).2
    rw [hhv] at this
    exact this

theorem c1_single_flight_witness :
    (loadMany okLoadDeps "models/lora_adapters/trained/sales-v2" "llama3" 3
        ([] : Registry)).2.1 = 1 ∧
    sfStateDone.loads = 1 ∧
    sfStateDone.obs.get? 0 = some (some 0) := by
  have e1 : EStep (initP 1) sfStateWaiting := EStep.toWait (initP 1) 0 rfl rfl
  have e2 : EStep sfStateWaiting sfStateCrit := EStep.acquire sfStateWaiting 0 rfl rfl
  have e3 : EStep sfStateCrit sfStateDone := EStep.critLoad sfStateCrit 0 rfl rfl rfl
  have hreach : ReachP (initP 1) sfStateDone :=
    Relation.ReflTransGen.tail (Relation.ReflTransGen.tail
      (Relation.ReflTransGen.single e1) e2) e3
  have h := c1_single_flight okLoadDeps [] "models/lora_adapters/trained/sales-v2" "llama3"
    7 3 1 sfStateDone rfl rfl rfl rfl (by omega) (by omega) hreach
    (by intro i hi
        have hi0 : i = 0 := by omega
        subst hi0
        rfl)
  exact ⟨h.1, h.2.2.2.1, rfl⟩
